import Mathlib

/-!
# Verification of the xdggs core: DGGS cell index and accessor

Shallow embedding of `xdggs/accessor.py` together with models of the
collaborators it is written against (the `DGGSIndex` interface, the
labeled-array engine's registry/selection/coordinate machinery, and the
H3 grid components pinned by `xdggs/tests/test_h3.py`).

Conventions:
- cell ids are natural numbers (the source stores unsigned 64-bit ids and
  never does arithmetic on them, so no wraparound modelling is needed);
- latitudes/longitudes are integers in hundred-millionths of a degree
  (the test reference values have at most eight decimal places);
- Python exceptions become an explicit error type, fallible operations
  return `Except`.
-/

namespace Xdggs

/-- Python exception kinds observed by the accessor's callers: `ValueError`
(used by xdggs for validation failures), `AttributeError` (raised by Python
itself on attribute access on `None`), and `KeyError` (raised by the
labeled-array engine's selection on a missing key). -/
inductive XErr where
  | valueError (msg : String)
  | attributeError (msg : String)
  | keyError (key : Nat)
  deriving DecidableEq, Repr

/-- Modelled from the spec: the `DGGSIndex` interface of `xdggs/index.py`
(not under src/), as consumed by `DGGSAccessor`: the wrapped position
lookup's values (`_pd_index.index.values`), the indexed dimension (`_dim`),
the coordinate transforms (`_latlon2cellid`, `_geom2cellid`) and
`cell_centers`.  Geometries are abstracted by a type parameter `G`. -/
structure DGGSIndex (G : Type) where
  pd_values : List Nat
  dim : String
  latlon2cellid : List Int → List Int → List Nat
  geom2cellid : G → List Nat
  cell_centers : List Int × List Int

/-- An entry of the labeled-array object's index registry: either a
`DGGSIndex` or some other index type the accessor ignores. -/
inductive XIndex (G : Type) where
  | dggs (idx : DGGSIndex G)
  | other

/-- Modelled from the spec: the external labeled-array object (xarray
`Dataset`/`DataArray`): an index registry keyed by name (`xindexes`), the
cell-id values along the indexed dimension, and named coordinate variables
`(name, (dim, data))`. -/
structure Obj (G : Type) where
  xindexes : List (String × XIndex G)
  cells : List Nat
  coords : List (String × String × List Int)

/-- The `DGGSIndex` entries of a registry, in registry order. -/
def dggsEntries {G : Type} : List (String × XIndex G) → List (String × DGGSIndex G)
  | [] => []
  | (k, XIndex.dggs idx) :: rest => (k, idx) :: dggsEntries rest
  | (_, XIndex.other) :: rest => dggsEntries rest

/-- The first `DGGSIndex` registered under `name`, skipping other entries. -/
def findDGGS {G : Type} : List (String × XIndex G) → String → Option (DGGSIndex G)
  | [], _ => none
  | (k, XIndex.dggs idx) :: rest, name =>
      if k = name then some idx else findDGGS rest name
  | (_, XIndex.other) :: rest, name => findDGGS rest name

/-- Modelled from the spec: the engine's `sel`-style API with
`{dim: key_array}` indexers: each key is resolved against the index
registered under `name`; a key absent from that index's values raises a
`KeyError` (the engine's missing-key policy); otherwise the subset holds
exactly the requested cells. -/
def Obj.sel {G : Type} (obj : Obj G) (name : String) (keys : List Nat) :
    Except XErr (Obj G) :=
  match findDGGS obj.xindexes name with
  | none => Except.error (XErr.keyError 0)
  | some idx =>
      match keys.find? (fun k => !(idx.pd_values.contains k)) with
      | some k => Except.error (XErr.keyError k)
      | none => Except.ok { obj with cells := keys }

/-- Modelled from the spec: the engine's `assign_coords`-style API: existing
coordinates with the assigned names are overwritten, the rest are kept, and
a new object is returned. -/
def Obj.assign_coords {G : Type} (obj : Obj G)
    (newCoords : List (String × String × List Int)) : Obj G :=
  { obj with
    coords :=
      obj.coords.filter (fun c => !(newCoords.any (fun n => n.1 == c.1)))
        ++ newCoords }

/-- `DGGSAccessor` (from `xdggs/accessor.py`): back-reference to the owning
object, the cached discovered index (or none), and its registry name. -/
structure DGGSAccessor (G : Type) where
  _obj : Obj G
  _index : Option (DGGSIndex G)
  _name : String

/-- The scan loop of `DGGSAccessor.__init__`: walk the registry, remember
the first `DGGSIndex` and its name, and raise
`ValueError("Only one DGGSIndex per object is supported")` on a second. -/
def initLoop {G : Type} :
    List (String × XIndex G) → Option (String × DGGSIndex G) →
      Except XErr (Option (String × DGGSIndex G))
  | [], acc => Except.ok acc
  | (k, XIndex.dggs idx) :: rest, acc =>
      match acc with
      | some _ =>
          Except.error (XErr.valueError "Only one DGGSIndex per object is supported")
      | none => initLoop rest (some (k, idx))
  | (_, XIndex.other) :: rest, acc => initLoop rest acc

/-- `DGGSAccessor.__init__`: on success the accessor caches the unique
`DGGSIndex` and its name, or `none` and the empty string when there is no
`DGGSIndex`. -/
def DGGSAccessor.init {G : Type} (obj : Obj G) : Except XErr (DGGSAccessor G) :=
  match initLoop obj.xindexes none with
  | Except.error e => Except.error e
  | Except.ok none => Except.ok { _obj := obj, _index := none, _name := "" }
  | Except.ok (some (k, idx)) => Except.ok { _obj := obj, _index := some idx, _name := k }

/-- The `DGGSAccessor.index` property: raises
`ValueError("no DGGSIndex found on this Dataset or DataArray")` when no
index was discovered. -/
def DGGSAccessor.indexProp {G : Type} (acc : DGGSAccessor G) :
    Except XErr (DGGSIndex G) :=
  match acc._index with
  | none => Except.error (XErr.valueError "no DGGSIndex found on this Dataset or DataArray")
  | some idx => Except.ok idx

/-- Index discovery on an object: construct the accessor, then read its
`index` property. -/
def discover {G : Type} (obj : Obj G) : Except XErr (DGGSIndex G) :=
  match DGGSAccessor.init obj with
  | Except.error e => Except.error e
  | Except.ok acc => acc.indexProp

/-- `DGGSAccessor.sel_latlon`: translate the points through the discovered
index's `_latlon2cellid` and select on the owning object under the cached
name with exactly those cell ids. -/
def DGGSAccessor.sel_latlon {G : Type} (acc : DGGSAccessor G)
    (latitude longitude : List Int) : Except XErr (Obj G) :=
  match acc.indexProp with
  | Except.error e => Except.error e
  | Except.ok idx => acc._obj.sel acc._name (idx.latlon2cellid latitude longitude)

/-- `DGGSAccessor.query`: read `_geom2cellid` directly off the cached
`_index` (an `AttributeError` on `None` when no index was discovered), mask
the candidate ids to those present in the index's values, and select. -/
def DGGSAccessor.query {G : Type} (acc : DGGSAccessor G) (geom : G) :
    Except XErr (Obj G) :=
  match acc._index with
  | none =>
      Except.error
        (XErr.attributeError "NoneType object has no attribute _geom2cellid")
  | some idx =>
      let cell_ids := idx.geom2cellid geom
      let masked := cell_ids.filter (fun c => idx.pd_values.contains c)
      acc._obj.sel acc._name masked

/-- `DGGSAccessor.assign_latlon_coords`: attach `latitude` and `longitude`
coordinates along the index dimension holding the index's cell centers,
returning a new object. -/
def DGGSAccessor.assign_latlon_coords {G : Type} (acc : DGGSAccessor G) :
    Except XErr (Obj G) :=
  match acc.indexProp with
  | Except.error e => Except.error e
  | Except.ok idx =>
      Except.ok
        (acc._obj.assign_coords
          [("latitude", idx.dim, idx.cell_centers.1),
           ("longitude", idx.dim, idx.cell_centers.2)])

/-! ## H3 grid components (`xdggs/h3.py`, not under src/) -/

/-- The maximum H3 resolution level used for validation (H3's `max_resolution`
is 15; the repository's tests construct `H3Info(resolution=15)` successfully). -/
def h3MaxLevel : Int := 15

/-- Modelled from the spec: `H3Info` of `xdggs/h3.py` (not under src/), an
immutable grid configuration holding the resolution level. -/
structure H3Info where
  resolution : Int
  deriving DecidableEq, Repr

/-- Modelled from the spec: `H3Info` construction validates the resolution
bound `[0, max_level]` and raises
`ValueError("resolution must be an integer between ...")` outside it; an
in-range resolution is stored unchanged, never clamped. -/
def H3Info.create (resolution : Int) : Except XErr H3Info :=
  if 0 ≤ resolution ∧ resolution ≤ h3MaxLevel then
    Except.ok { resolution := resolution }
  else
    Except.error (XErr.valueError "resolution must be an integer between 0 and 15")

/-- The flat serialization mapping `{grid_name, resolution}`; `grid_name`
is optional on input (`from_dict`'s test fixtures omit it). -/
structure H3Mapping where
  grid_name : Option String
  resolution : Int
  deriving DecidableEq, Repr

/-- Modelled from the spec: `H3Info.from_dict` extracts `resolution`,
validates `grid_name` when present, and applies the same resolution
validation as construction. -/
def H3Info.from_dict (mapping : H3Mapping) : Except XErr H3Info :=
  match mapping.grid_name with
  | some g =>
      if g = "h3" then H3Info.create mapping.resolution
      else Except.error (XErr.valueError "unrecognized grid name")
  | none => H3Info.create mapping.resolution

/-- Modelled from the spec: `H3Info.to_dict` produces the flat mapping
`{grid_name: "h3", resolution}`. -/
def H3Info.to_dict (info : H3Info) : H3Mapping :=
  { grid_name := some "h3", resolution := info.resolution }

/-- Modelled from the spec: the labeled-array engine's `PandasIndex`, an
ordered position lookup over the stored values along one dimension
(`test_init` pins `_pd_index.index.values == cell_ids` and
`_pd_index.dim == dim`). -/
structure PandasIndex where
  values : List Nat
  dim : String
  deriving DecidableEq, Repr

/-- The lookup's key-to-position resolution: the position of the first
occurrence of `key` among the stored values. -/
def PandasIndex.get_loc (pd : PandasIndex) (key : Nat) : Option Nat :=
  pd.values.indexOf? key

/-- Modelled from the spec: `H3Index` of `xdggs/h3.py` (not under src/),
binding the wrapped position lookup to the indexed dimension and the grid
configuration. -/
structure H3Index where
  _pd_index : PandasIndex
  _dim : String
  _grid : H3Info
  deriving DecidableEq, Repr

/-- Modelled from the spec: `H3Index` construction builds the position
lookup over `cell_ids` indexed along `dim` and stores the grid
configuration. -/
def H3Index.construct (cell_ids : List Nat) (dim : String) (grid : H3Info) :
    H3Index :=
  { _pd_index := { values := cell_ids, dim := dim }, _dim := dim, _grid := grid }

/-- Modelled from the spec: `H3Index._replace` returns a new index
preserving `_grid` and `_dim` and substituting the position lookup; the
original is not mutated. -/
def H3Index.replacePd (idx : H3Index) (new_pd : PandasIndex) : H3Index :=
  { idx with _pd_index := new_pd }

/-! ## H3 coordinate transforms at resolution 3

`H3Index._cellid2latlon` / `_latlon2cellid` delegate to the external H3
library. Modelled from the spec via the reference values the repository's
tests pin at resolution 3 (`test_cellid2latlon` / `test_latlon2cellid`):
six cell ids with their centroid coordinates, stored in hundred-millionths
of a degree. -/

/-- The reference table of `test_cellid2latlon`: cell id to `(lat, lon)`
centroid, coordinates in hundred-millionths of a degree. -/
def centerTable : List (Nat × (Int × Int)) :=
  [(0x832830FFFFFFFFF, (3819320895, -12219619676)),
   (0x832831FFFFFFFFF, (3863853196, -12343390346)),
   (0x832832FFFFFFFFF, (3882387033, -12100991811)),
   (0x832833FFFFFFFFF, (3927846774, -12225943990)),
   (0x832834FFFFFFFFF, (3709786649, -12213425086)),
   (0x832835FFFFFFFFF, (3755231005, -12335925909))]

/-- The reference table of `test_latlon2cellid`: `(lat, lon)` to the
containing cell id at resolution 3, the inverse direction pinned
independently by its own test. -/
def cellTable : List ((Int × Int) × Nat) :=
  [((3819320895, -12219619676), 0x832830FFFFFFFFF),
   ((3863853196, -12343390346), 0x832831FFFFFFFFF),
   ((3882387033, -12100991811), 0x832832FFFFFFFFF),
   ((3927846774, -12225943990), 0x832833FFFFFFFFF),
   ((3709786649, -12213425086), 0x832834FFFFFFFFF),
   ((3755231005, -12335925909), 0x832835FFFFFFFFF)]

/-- Modelled from the spec: `H3Index._cellid2latlon` restricted to the
tabulated reference cells at resolution 3. -/
def cellid2latlon3 (c : Nat) : Option (Int × Int) :=
  (centerTable.find? (fun p => p.1 == c)).map (fun p => p.2)

/-- Modelled from the spec: `H3Index._latlon2cellid` at resolution 3,
restricted to the tabulated reference centroids. -/
def latlon2cellid3 (ll : Int × Int) : Option Nat :=
  (cellTable.find? (fun p => p.1 == ll)).map (fun p => p.2)

/-- The cell ids that are actual cells at resolution 3 in the model: the
domain of the reference table. -/
def knownCells3 : List Nat := centerTable.map (fun p => p.1)

/-! ## Helper lemmas about the discovery scan -/

theorem initLoop_error_of_some {G : Type} (reg : List (String × XIndex G))
    (p : String × DGGSIndex G) (h : 1 ≤ (dggsEntries reg).length) :
    initLoop reg (some p) =
      Except.error (XErr.valueError "Only one DGGSIndex per object is supported") := by
  induction reg generalizing p with
  | nil => simp [dggsEntries] at h
  | cons hd tl ih =>
    obtain ⟨k, xi⟩ := hd
    cases xi with
    | dggs idx => simp [initLoop]
    | other =>
      simp only [dggsEntries] at h
      simpa [initLoop] using ih p h

theorem initLoop_error_of_two {G : Type} (reg : List (String × XIndex G))
    (h : 2 ≤ (dggsEntries reg).length) :
    initLoop reg none =
      Except.error (XErr.valueError "Only one DGGSIndex per object is supported") := by
  induction reg with
  | nil => simp [dggsEntries] at h
  | cons hd tl ih =>
    obtain ⟨k, xi⟩ := hd
    cases xi with
    | dggs idx =>
      simp only [dggsEntries, List.length_cons] at h
      simpa [initLoop] using initLoop_error_of_some tl (k, idx) (by omega)
    | other =>
      simp only [dggsEntries] at h
      simpa [initLoop] using ih h

theorem initLoop_ok_of_empty {G : Type} (reg : List (String × XIndex G))
    (h : dggsEntries reg = []) (s : Option (String × DGGSIndex G)) :
    initLoop reg s = Except.ok s := by
  induction reg generalizing s with
  | nil => simp [initLoop]
  | cons hd tl ih =>
    obtain ⟨k, xi⟩ := hd
    cases xi with
    | dggs idx => simp [dggsEntries] at h
    | other =>
      simp only [dggsEntries] at h
      simpa [initLoop] using ih h s

theorem initLoop_ok_of_one {G : Type} (reg : List (String × XIndex G))
    (k : String) (idx : DGGSIndex G) (h : dggsEntries reg = [(k, idx)]) :
    initLoop reg none = Except.ok (some (k, idx)) := by
  induction reg with
  | nil => simp [dggsEntries] at h
  | cons hd tl ih =>
    obtain ⟨k', xi⟩ := hd
    cases xi with
    | dggs idx' =>
      simp only [dggsEntries, List.cons.injEq, Prod.mk.injEq] at h
      obtain ⟨⟨hk, hidx⟩, htl⟩ := h
      simp only [initLoop]
      rw [hk, hidx]
      exact initLoop_ok_of_empty tl htl (some (k, idx))
    | other =>
      simp only [dggsEntries] at h
      simpa [initLoop] using ih h

theorem initLoop_some_of_ok {G : Type} (reg : List (String × XIndex G))
    (p : String × DGGSIndex G) (r : Option (String × DGGSIndex G))
    (h : initLoop reg (some p) = Except.ok r) :
    r = some p ∧ dggsEntries reg = [] := by
  induction reg with
  | nil =>
    simp only [initLoop, Except.ok.injEq] at h
    exact ⟨h.symm, rfl⟩
  | cons hd tl ih =>
    obtain ⟨k, xi⟩ := hd
    cases xi with
    | dggs idx => simp [initLoop] at h
    | other =>
      simp only [initLoop] at h
      simpa [dggsEntries] using ih h

theorem initLoop_ok_some_inv {G : Type} (reg : List (String × XIndex G))
    (k : String) (idx : DGGSIndex G)
    (h : initLoop reg none = Except.ok (some (k, idx))) :
    dggsEntries reg = [(k, idx)] := by
  induction reg with
  | nil => simp [initLoop] at h
  | cons hd tl ih =>
    obtain ⟨k', xi⟩ := hd
    cases xi with
    | dggs idx' =>
      simp only [initLoop] at h
      obtain ⟨hp, htl⟩ := initLoop_some_of_ok tl (k', idx') _ h
      simp only [Option.some.injEq, Prod.mk.injEq] at hp
      simp [dggsEntries, hp.1, hp.2, htl]
    | other =>
      simp only [initLoop] at h
      simpa [dggsEntries] using ih h

theorem initLoop_none_of_ok {G : Type} (reg : List (String × XIndex G))
    (h : initLoop reg none = Except.ok none) : dggsEntries reg = [] := by
  induction reg with
  | nil => simp [dggsEntries]
  | cons hd tl ih =>
    obtain ⟨k, xi⟩ := hd
    cases xi with
    | dggs idx =>
      simp only [initLoop] at h
      obtain ⟨hp, _⟩ := initLoop_some_of_ok tl (k, idx) _ h
      exact absurd hp (by simp)
    | other =>
      simp only [initLoop] at h
      simpa [dggsEntries] using ih h

theorem findDGGS_of_one {G : Type} (reg : List (String × XIndex G))
    (k : String) (idx : DGGSIndex G) (h : dggsEntries reg = [(k, idx)]) :
    findDGGS reg k = some idx := by
  induction reg with
  | nil => simp [dggsEntries] at h
  | cons hd tl ih =>
    obtain ⟨k', xi⟩ := hd
    cases xi with
    | dggs idx' =>
      simp only [dggsEntries, List.cons.injEq, Prod.mk.injEq] at h
      obtain ⟨⟨hk, hidx⟩, _⟩ := h
      subst hk
      subst hidx
      simp [findDGGS]
    | other =>
      simp only [dggsEntries] at h
      simpa [findDGGS] using ih h

/-- An accessor produced by `init` with a cached index came from a registry
whose unique `DGGSIndex` entry is that index under the cached name. -/
theorem init_cached_entry {G : Type} (obj : Obj G) (acc : DGGSAccessor G)
    (idx : DGGSIndex G) (hinit : DGGSAccessor.init obj = Except.ok acc)
    (hidx : acc._index = some idx) :
    acc._obj = obj ∧ dggsEntries obj.xindexes = [(acc._name, idx)] := by
  unfold DGGSAccessor.init at hinit
  cases hloop : initLoop obj.xindexes (G := G) none with
  | error e => rw [hloop] at hinit; exact absurd hinit (by simp)
  | ok r =>
    rw [hloop] at hinit
    cases r with
    | none =>
      simp only [Except.ok.injEq] at hinit
      rw [← hinit] at hidx
      exact absurd hidx (by simp)
    | some p =>
      obtain ⟨k, i⟩ := p
      simp only [Except.ok.injEq] at hinit
      rw [← hinit] at hidx
      simp only at hidx
      have hi : i = idx := by simpa using hidx
      refine ⟨by rw [← hinit], ?_⟩
      rw [← hinit]
      show dggsEntries obj.xindexes = [(k, idx)]
      rw [← hi]
      exact initLoop_ok_some_inv obj.xindexes k i hloop

/-! ## Claim theorems -/

/-- C1: index discovery fails with the distinct ambiguity `ValueError` when
the registry holds two or more `DGGSIndex` entries, fails with the
no-index `ValueError` when it holds none, and returns the unique index when
it holds exactly one. -/
theorem C1_discovery {G : Type} (obj : Obj G) :
    (2 ≤ (dggsEntries obj.xindexes).length →
      discover obj =
        Except.error (XErr.valueError "Only one DGGSIndex per object is supported")) ∧
    ((dggsEntries obj.xindexes).length = 0 →
      discover obj =
        Except.error (XErr.valueError "no DGGSIndex found on this Dataset or DataArray")) ∧
    (∀ k idx, dggsEntries obj.xindexes = [(k, idx)] →
      discover obj = Except.ok idx) := by
  refine ⟨?_, ?_, ?_⟩
  · intro h
    unfold discover DGGSAccessor.init
    rw [initLoop_error_of_two obj.xindexes h]
  · intro h
    unfold discover DGGSAccessor.init
    rw [initLoop_ok_of_empty obj.xindexes (List.length_eq_zero.mp h) none]
    simp [DGGSAccessor.indexProp]
  · intro k idx h
    unfold discover DGGSAccessor.init
    rw [initLoop_ok_of_one obj.xindexes k idx h]
    simp [DGGSAccessor.indexProp]

/-- A concrete index used to evaluate the accessor operations: three cells
along dimension `cells`; point translation truncates latitudes to cell ids,
geometry translation returns a fixed candidate list. -/
def sampleIndex : DGGSIndex Unit :=
  { pd_values := [5, 7, 9]
    dim := "cells"
    latlon2cellid := fun lat _ => lat.map Int.toNat
    geom2cellid := fun _ => [5, 9, 11]
    cell_centers := ([10, 20, 30], [40, 50, 60]) }

/-- An object carrying exactly one `DGGSIndex` (plus an unrelated index). -/
def sampleObj : Obj Unit :=
  { xindexes := [("x", XIndex.other), ("cell_ids", XIndex.dggs sampleIndex)]
    cells := [5, 7, 9]
    coords := [("elev", "cells", [1, 2, 3])] }

/-- The accessor `DGGSAccessor.init` produces on `sampleObj`. -/
def sampleAcc : DGGSAccessor Unit :=
  { _obj := sampleObj, _index := some sampleIndex, _name := "cell_ids" }

/-- An object with no `DGGSIndex` in its registry. -/
def emptyObj : Obj Unit :=
  { xindexes := [("x", XIndex.other)], cells := [], coords := [] }

/-- An object carrying two `DGGSIndex` entries. -/
def dualObj : Obj Unit :=
  { xindexes := [("a", XIndex.dggs sampleIndex), ("b", XIndex.dggs sampleIndex)]
    cells := []
    coords := [] }

/-- Witness for C1 at concrete objects with one, zero and two indexes. -/
theorem C1_discovery_witness :
    discover sampleObj = Except.ok sampleIndex ∧
    discover emptyObj =
      Except.error (XErr.valueError "no DGGSIndex found on this Dataset or DataArray") ∧
    discover dualObj =
      Except.error (XErr.valueError "Only one DGGSIndex per object is supported") :=
  ⟨(C1_discovery sampleObj).2.2 "cell_ids" sampleIndex rfl,
   (C1_discovery emptyObj).2.1 rfl,
   (C1_discovery dualObj).1 (by decide)⟩

/-- C2: a geometry query masks the candidate cell ids to those present in
the index's values before selecting, so it always returns a valid
(possibly empty) subset holding exactly the present candidates — never an
error for absent candidates. -/
theorem C2_query_masking {G : Type} (obj : Obj G) (acc : DGGSAccessor G)
    (idx : DGGSIndex G) (geom : G)
    (hinit : DGGSAccessor.init obj = Except.ok acc)
    (hidx : acc._index = some idx) :
    ∃ subset, acc.query geom = Except.ok subset ∧
      subset.cells =
        (idx.geom2cellid geom).filter (fun c => idx.pd_values.contains c) ∧
      ∀ c ∈ subset.cells, c ∈ idx.pd_values := by
  obtain ⟨hobj, hentry⟩ := init_cached_entry obj acc idx hinit hidx
  have hfind : findDGGS obj.xindexes acc._name = some idx :=
    findDGGS_of_one obj.xindexes acc._name idx hentry
  refine ⟨{ acc._obj with
            cells := (idx.geom2cellid geom).filter (fun c => idx.pd_values.contains c) },
          ?_, rfl, ?_⟩
  · have hnone :
        ((idx.geom2cellid geom).filter (fun c => idx.pd_values.contains c)).find?
          (fun k => !(idx.pd_values.contains k)) = none := by
      apply List.find?_eq_none.mpr
      intro x hx
      have hxin := (List.mem_filter.mp hx).2
      simpa using hxin
    unfold DGGSAccessor.query Obj.sel
    simp only [hidx, hobj, hfind, hnone]
  · intro c hc
    have hcin := (List.mem_filter.mp hc).2
    simpa using hcin

/-- Witness for C2: the candidate `11` is silently dropped, the present
candidates `5` and `9` are selected. -/
theorem C2_query_masking_witness :
    ∃ subset, sampleAcc.query () = Except.ok subset ∧ subset.cells = [5, 9] := by
  obtain ⟨s, h1, h2, _⟩ :=
    C2_query_masking sampleObj sampleAcc sampleIndex () rfl rfl
  refine ⟨s, h1, ?_⟩
  rw [h2]
  rfl

/-- C7: point selection translates each point through the discovered
index's `_latlon2cellid` and selects with exactly those cell ids; a
translated id absent from the index propagates the engine's `KeyError`
(not swallowed), and when all ids are present the subset holds exactly
them. -/
theorem C7_sel_latlon {G : Type} (obj : Obj G) (acc : DGGSAccessor G)
    (idx : DGGSIndex G) (lat lon : List Int)
    (hinit : DGGSAccessor.init obj = Except.ok acc)
    (hidx : acc._index = some idx) :
    acc.sel_latlon lat lon =
      acc._obj.sel acc._name (idx.latlon2cellid lat lon) ∧
    (∀ k, (idx.latlon2cellid lat lon).find?
        (fun c => !(idx.pd_values.contains c)) = some k →
      acc.sel_latlon lat lon = Except.error (XErr.keyError k)) ∧
    ((∀ c ∈ idx.latlon2cellid lat lon, c ∈ idx.pd_values) →
      acc.sel_latlon lat lon =
        Except.ok { acc._obj with cells := idx.latlon2cellid lat lon }) := by
  obtain ⟨hobj, hentry⟩ := init_cached_entry obj acc idx hinit hidx
  have hfind : findDGGS obj.xindexes acc._name = some idx :=
    findDGGS_of_one obj.xindexes acc._name idx hentry
  have htrans : acc.sel_latlon lat lon =
      acc._obj.sel acc._name (idx.latlon2cellid lat lon) := by
    unfold DGGSAccessor.sel_latlon DGGSAccessor.indexProp
    simp only [hidx]
  refine ⟨htrans, ?_, ?_⟩
  · intro k hk
    rw [htrans]
    unfold Obj.sel
    simp only [hobj, hfind, hk]
  · intro hall
    have hnone : (idx.latlon2cellid lat lon).find?
        (fun c => !(idx.pd_values.contains c)) = none := by
      apply List.find?_eq_none.mpr
      intro x hx
      simpa using hall x hx
    rw [htrans]
    unfold Obj.sel
    simp only [hobj, hfind, hnone]

/-- Witness for C7: the translated id `11` is missing from the index and
the `KeyError` propagates; the translated ids `5, 7` are present and are
selected exactly. -/
theorem C7_sel_latlon_witness :
    sampleAcc.sel_latlon [11] [0] = Except.error (XErr.keyError 11) ∧
    sampleAcc.sel_latlon [5, 7] [0] =
      Except.ok { sampleObj with cells := [5, 7] } := by
  refine ⟨?_, ?_⟩
  · exact (C7_sel_latlon sampleObj sampleAcc sampleIndex [11] [0] rfl rfl).2.1
      11 rfl
  · exact (C7_sel_latlon sampleObj sampleAcc sampleIndex [5, 7] [0] rfl rfl).2.2
      (by decide)

/-- The engine's coordinate lookup: the first coordinate variable with the
given name. -/
def coordLookup {G : Type} (obj : Obj G) (name : String) :
    Option (String × String × List Int) :=
  obj.coords.find? (fun c => c.1 == name)

/-- C9: assigning lat/lon coordinates returns a new object carrying
coordinate variables `latitude` and `longitude` along the index's
dimension whose data are the index's cell centers, leaving the cells and
index registry unchanged (the original object is untouched — the operation
is pure and returns a fresh object). -/
theorem C9_assign_latlon {G : Type} (obj : Obj G) (acc : DGGSAccessor G)
    (idx : DGGSIndex G)
    (hinit : DGGSAccessor.init obj = Except.ok acc)
    (hidx : acc._index = some idx) :
    ∃ newObj, acc.assign_latlon_coords = Except.ok newObj ∧
      coordLookup newObj "latitude" =
        some ("latitude", idx.dim, idx.cell_centers.1) ∧
      coordLookup newObj "longitude" =
        some ("longitude", idx.dim, idx.cell_centers.2) ∧
      newObj.cells = acc._obj.cells ∧
      newObj.xindexes = acc._obj.xindexes := by
  refine ⟨acc._obj.assign_coords
      [("latitude", idx.dim, idx.cell_centers.1),
       ("longitude", idx.dim, idx.cell_centers.2)], ?_, ?_, ?_, rfl, rfl⟩
  · unfold DGGSAccessor.assign_latlon_coords DGGSAccessor.indexProp
    simp only [hidx]
  · unfold coordLookup Obj.assign_coords
    rw [List.find?_append]
    have hleft : (acc._obj.coords.filter
        (fun c => !([("latitude", idx.dim, idx.cell_centers.1),
                     ("longitude", idx.dim, idx.cell_centers.2)].any
                      (fun n => n.1 == c.1)))).find?
        (fun c => c.1 == "latitude") = none := by
      apply List.find?_eq_none.mpr
      intro x hx
      have hx2 := (List.mem_filter.mp hx).2
      simp only [List.any_cons, List.any_nil, Bool.or_false, Bool.not_eq_true',
        Bool.or_eq_false_iff, beq_eq_false_iff_ne, ne_eq] at hx2
      simp [beq_iff_eq]
      exact fun h => hx2.1 h.symm
    rw [hleft]
    simp [List.find?]
  · unfold coordLookup Obj.assign_coords
    rw [List.find?_append]
    have hleft : (acc._obj.coords.filter
        (fun c => !([("latitude", idx.dim, idx.cell_centers.1),
                     ("longitude", idx.dim, idx.cell_centers.2)].any
                      (fun n => n.1 == c.1)))).find?
        (fun c => c.1 == "longitude") = none := by
      apply List.find?_eq_none.mpr
      intro x hx
      have hx2 := (List.mem_filter.mp hx).2
      simp only [List.any_cons, List.any_nil, Bool.or_false, Bool.not_eq_true',
        Bool.or_eq_false_iff, beq_eq_false_iff_ne, ne_eq] at hx2
      simp [beq_iff_eq]
      exact fun h => hx2.2 h.symm
    rw [hleft]
    simp [List.find?]

/-- Witness for C9 at the sample accessor: the new object carries the
sample index's cell centers as `latitude`/`longitude` along `cells`. -/
theorem C9_assign_latlon_witness :
    ∃ newObj, sampleAcc.assign_latlon_coords = Except.ok newObj ∧
      coordLookup newObj "latitude" = some ("latitude", "cells", [10, 20, 30]) ∧
      coordLookup newObj "longitude" = some ("longitude", "cells", [40, 50, 60]) := by
  obtain ⟨n, h1, h2, h3, _, _⟩ :=
    C9_assign_latlon sampleObj sampleAcc sampleIndex rfl rfl
  exact ⟨n, h1, h2, h3⟩

/-- C10: on an object with zero `DGGSIndex` entries the accessor constructs
successfully caching `none` and the empty name; point selection and
coordinate assignment then fail with the descriptive no-index `ValueError`
through the `index` property, while the geometry query reads the cached
`None` directly and fails with a different, non-descriptive
`AttributeError`. -/
theorem C10_no_index_asymmetry {G : Type} (obj : Obj G)
    (h : dggsEntries obj.xindexes = []) :
    ∃ acc, DGGSAccessor.init obj = Except.ok acc ∧
      acc._index = none ∧ acc._name = "" ∧
      (∀ lat lon, acc.sel_latlon lat lon =
        Except.error
          (XErr.valueError "no DGGSIndex found on this Dataset or DataArray")) ∧
      acc.assign_latlon_coords =
        Except.error
          (XErr.valueError "no DGGSIndex found on this Dataset or DataArray") ∧
      (∀ geom, acc.query geom =
        Except.error
          (XErr.attributeError "NoneType object has no attribute _geom2cellid")) ∧
      (∀ geom lat lon, acc.query geom ≠ acc.sel_latlon lat lon) := by
  have hinit : DGGSAccessor.init obj =
      Except.ok { _obj := obj, _index := none, _name := "" } := by
    unfold DGGSAccessor.init
    rw [initLoop_ok_of_empty obj.xindexes h none]
  refine ⟨{ _obj := obj, _index := none, _name := "" }, hinit, rfl, rfl,
    ?_, ?_, ?_, ?_⟩
  · intro lat lon
    unfold DGGSAccessor.sel_latlon DGGSAccessor.indexProp
    simp only
  · unfold DGGSAccessor.assign_latlon_coords DGGSAccessor.indexProp
    simp only
  · intro geom
    unfold DGGSAccessor.query
    simp only
  · intro geom lat lon
    unfold DGGSAccessor.query DGGSAccessor.sel_latlon DGGSAccessor.indexProp
    simp

/-- Witness for C10 at a concrete object with an empty registry. -/
theorem C10_no_index_asymmetry_witness :
    ∃ acc, DGGSAccessor.init emptyObj = Except.ok acc ∧
      acc._index = none ∧ acc._name = "" ∧
      acc.sel_latlon [0] [0] =
        Except.error
          (XErr.valueError "no DGGSIndex found on this Dataset or DataArray") ∧
      acc.query () =
        Except.error
          (XErr.attributeError "NoneType object has no attribute _geom2cellid") := by
  obtain ⟨acc, h1, h2, h3, h4, _, h6, _⟩ :=
    C10_no_index_asymmetry emptyObj rfl
  exact ⟨acc, h1, h2, h3, h4 [0] [0], h6 ()⟩

/-- C4: grid configuration serialization round-trips: any validly
constructed `H3Info` survives `to_dict` followed by `from_dict`
unchanged. -/
theorem C4_grid_roundtrip (r : Int) (info : H3Info)
    (hok : H3Info.create r = Except.ok info) :
    H3Info.from_dict info.to_dict = Except.ok info := by
  unfold H3Info.create at hok
  by_cases hcond : 0 ≤ r ∧ r ≤ h3MaxLevel
  · rw [if_pos hcond] at hok
    have hinfo : H3Info.mk r = info := by
      injection hok
    rw [← hinfo]
    simp [H3Info.from_dict, H3Info.to_dict, H3Info.create, hcond]
  · rw [if_neg hcond] at hok
    exact absurd hok (by simp)

/-- Witness for C4 at resolution 0. -/
theorem C4_grid_roundtrip_witness :
    H3Info.create 0 = Except.ok (H3Info.mk 0) ∧
    H3Info.from_dict (H3Info.to_dict (H3Info.mk 0)) = Except.ok (H3Info.mk 0) :=
  ⟨rfl, C4_grid_roundtrip 0 (H3Info.mk 0) rfl⟩

/-- C5: resolution is validated at construction and never clamped:
`-1` (and every out-of-range value) fails construction and `from_dict`
with the validation error, while `0`, `max_level`, and every in-range
value succeed storing the resolution unchanged. -/
theorem C5_resolution_validation :
    H3Info.create (-1) =
      Except.error (XErr.valueError "resolution must be an integer between 0 and 15") ∧
    H3Info.create 0 = Except.ok (H3Info.mk 0) ∧
    H3Info.create h3MaxLevel = Except.ok (H3Info.mk h3MaxLevel) ∧
    (∀ r : Int, (r < 0 ∨ h3MaxLevel < r) →
      H3Info.create r =
        Except.error
          (XErr.valueError "resolution must be an integer between 0 and 15") ∧
      H3Info.from_dict (H3Mapping.mk none r) =
        Except.error
          (XErr.valueError "resolution must be an integer between 0 and 15")) ∧
    (∀ r : Int, 0 ≤ r → r ≤ h3MaxLevel →
      H3Info.create r = Except.ok (H3Info.mk r) ∧
      H3Info.from_dict (H3Mapping.mk none r) = Except.ok (H3Info.mk r)) := by
  refine ⟨rfl, rfl, rfl, ?_, ?_⟩
  · intro r hr
    have hneg : ¬(0 ≤ r ∧ r ≤ h3MaxLevel) := by
      unfold h3MaxLevel at hr ⊢
      omega
    constructor
    · unfold H3Info.create
      rw [if_neg hneg]
    · unfold H3Info.from_dict H3Info.create
      rw [if_neg hneg]
  · intro r h0 h1
    have hpos : 0 ≤ r ∧ r ≤ h3MaxLevel := ⟨h0, h1⟩
    constructor
    · unfold H3Info.create
      rw [if_pos hpos]
    · unfold H3Info.from_dict H3Info.create
      rw [if_pos hpos]

/-- Witness for C5 at the out-of-range resolution 16 and the in-range
resolution 7. -/
theorem C5_resolution_validation_witness :
    H3Info.create 16 =
      Except.error (XErr.valueError "resolution must be an integer between 0 and 15") ∧
    H3Info.from_dict (H3Mapping.mk none 16) =
      Except.error (XErr.valueError "resolution must be an integer between 0 and 15") ∧
    H3Info.create 7 = Except.ok (H3Info.mk 7) ∧
    H3Info.from_dict (H3Mapping.mk none 7) = Except.ok (H3Info.mk 7) :=
  ⟨(C5_resolution_validation.2.2.2.1 16 (by decide)).1,
   (C5_resolution_validation.2.2.2.1 16 (by decide)).2,
   (C5_resolution_validation.2.2.2.2 7 (by decide) (by decide)).1,
   (C5_resolution_validation.2.2.2.2 7 (by decide) (by decide)).2⟩

/-- A position lookup resolves each stored value back to its own position
when the values are unique. -/
theorem indexOf?_getElem_of_nodup (l : List Nat) (hn : l.Nodup) :
    ∀ i (h : i < l.length), l.indexOf? l[i] = some i := by
  induction l with
  | nil => intro i h; simp at h
  | cons a t ih =>
    have hn' := List.nodup_cons.mp hn
    intro i h
    cases i with
    | zero => simp [List.indexOf?_cons]
    | succ n =>
      have hlt : n < t.length := by simpa using h
      have hmem : t[n] ∈ t := List.getElem_mem hlt
      have hne : (a == t[n]) = false := by
        simp only [beq_eq_false_iff_ne, ne_eq]
        intro e
        exact hn'.1 (e ▸ hmem)
      have hcons : (a :: t)[n + 1] = t[n] := by simp
      rw [hcons, List.indexOf?_cons, hne]
      simp [ih hn'.2 n hlt]

/-- C6: `H3Index.construct` builds the position lookup holding exactly the
cell ids in their original order along the given dimension, and for unique
ids the lookup resolves each `C[i]` to position `i`. -/
theorem C6_construct_consistency (C : List Nat) (d : String) (g : H3Info) :
    (H3Index.construct C d g)._pd_index.values = C ∧
    (H3Index.construct C d g)._pd_index.dim = d ∧
    (C.Nodup → ∀ i (h : i < C.length),
      (H3Index.construct C d g)._pd_index.get_loc C[i] = some i) := by
  refine ⟨rfl, rfl, ?_⟩
  intro hn i h
  exact indexOf?_getElem_of_nodup C hn i h

/-- Witness for C6 on the unique cell-id array `[3, 1, 2]`. -/
theorem C6_construct_consistency_witness :
    ([3, 1, 2] : List Nat).Nodup ∧
    (H3Index.construct [3, 1, 2] "cells" (H3Info.mk 3))._pd_index.get_loc 1 =
      some 1 :=
  ⟨by decide,
   (C6_construct_consistency [3, 1, 2] "cells" (H3Info.mk 3)).2.2 (by decide)
     1 (by decide)⟩

/-- C8: `_replace` returns a new index preserving `_grid` and `_dim` and
carrying exactly the supplied position lookup; when the supplied lookup
differs, the new index's lookup differs from the original's (the original,
a pure value, is untouched). -/
theorem C8_replace_frame (idx : H3Index) (p : PandasIndex) :
    (idx.replacePd p)._grid = idx._grid ∧
    (idx.replacePd p)._dim = idx._dim ∧
    (idx.replacePd p)._pd_index = p ∧
    (p ≠ idx._pd_index → (idx.replacePd p)._pd_index ≠ idx._pd_index) :=
  ⟨rfl, rfl, rfl, fun h => h⟩

/-- Witness for C8 with a replacement lookup that differs from the
original's. -/
theorem C8_replace_frame_witness :
    (PandasIndex.mk [4] "zones" ≠
      (H3Index.construct [1, 2] "cells" (H3Info.mk 3))._pd_index) ∧
    ((H3Index.construct [1, 2] "cells" (H3Info.mk 3)).replacePd
        (PandasIndex.mk [4] "zones"))._pd_index ≠
      (H3Index.construct [1, 2] "cells" (H3Info.mk 3))._pd_index ∧
    ((H3Index.construct [1, 2] "cells" (H3Info.mk 3)).replacePd
        (PandasIndex.mk [4] "zones"))._grid =
      (H3Index.construct [1, 2] "cells" (H3Info.mk 3))._grid :=
  ⟨by decide,
   (C8_replace_frame (H3Index.construct [1, 2] "cells" (H3Info.mk 3))
       (PandasIndex.mk [4] "zones")).2.2.2 (by decide),
   (C8_replace_frame (H3Index.construct [1, 2] "cells" (H3Info.mk 3))
       (PandasIndex.mk [4] "zones")).1⟩

/-- C3: at the fixed resolution 3, mapping a cell id to its centroid and
the centroid back to its containing cell recovers the original cell id,
for every cell id in the modelled domain. -/
theorem C3_centroid_roundtrip (c : Nat) (hc : c ∈ knownCells3) :
    ∃ ll, cellid2latlon3 c = some ll ∧ latlon2cellid3 ll = some c := by
  simp only [knownCells3, centerTable, List.map_cons, List.map_nil,
    List.mem_cons, List.not_mem_nil, or_false] at hc
  rcases hc with rfl | rfl | rfl | rfl | rfl | rfl <;> exact ⟨_, rfl, rfl⟩

/-- Witness for C3 at the first reference cell. -/
theorem C3_centroid_roundtrip_witness :
    (0x832830FFFFFFFFF : Nat) ∈ knownCells3 ∧
    ∃ ll, cellid2latlon3 0x832830FFFFFFFFF = some ll ∧
      latlon2cellid3 ll = some 0x832830FFFFFFFFF :=
  ⟨by decide, C3_centroid_roundtrip 0x832830FFFFFFFFF (by decide)⟩

end Xdggs
